import Mathlib

/-!
Shallow embedding of the GroupMeBot TypeScript library
(`src/groupme/GroupMe.ts`, `src/groupme/types/Callback.ts`,
`src/groupme/types/Attachment.ts`, `src/groupme/types/Group.ts`, and the
older client variant kept alongside it) together with proofs about the
claims of the specification.

JSON values delivered by `body-parser` / axios are modelled by the `Json`
inductive; JavaScript exceptions are modelled by `Except JsError`; property
access `x[k]` is modelled by `jsIndex` (throwing `TypeError` on `null`,
returning `undefined`, i.e. `Option.none`, on absent keys or non-object
receivers); the `!=` comparison against the numeric literal `200` is
modelled by `jsLooseEqNum` following JavaScript loose-equality coercion
for JSON-representable values (string-to-number conversion is modelled for
decimal integer strings, which covers every value the library compares).
-/

/-- JSON values as produced by `JSON.parse` (numbers restricted to the
integers, which is all the library ever compares or inspects). -/
inductive Json where
  | null : Json
  | bool (b : Bool) : Json
  | num (n : Int) : Json
  | str (s : String) : Json
  | arr (elems : List Json) : Json
  | obj (fields : List (String × Json)) : Json

/-- JavaScript exceptions thrown by the library: `error` models
`new Error(message)` (the only kind the library constructs itself) and
`typeError` models the runtime `TypeError`s raised by property access on
`null`/`undefined`, calling `.map` on a non-array, or `for..of` over a
non-iterable. -/
inductive JsError where
  | error (message : String) : JsError
  | typeError (message : String) : JsError

/-- Property access `j[k]` on a JSON value for a non-numeric string key:
`null` receivers throw a `TypeError`; objects yield the named field or
`undefined` (`Option.none`); every other receiver yields `undefined`. -/
def jsIndex : Json → String → Except JsError (Option Json)
  | Json.null, k =>
      Except.error (JsError.typeError
        ("Cannot read properties of null (reading " ++ k ++ ")"))
  | Json.obj fields, k => Except.ok (fields.lookup k)
  | _, _ => Except.ok none

/-- Property access `v[k]` where the receiver may itself be `undefined`
(the result of a previous access), as in `json['meta']['code']`. -/
def jsIndexU : Option Json → String → Except JsError (Option Json)
  | none, k =>
      Except.error (JsError.typeError
        ("Cannot read properties of undefined (reading " ++ k ++ ")"))
  | some j, k => jsIndex j k

mutual

/-- JavaScript string conversion of a JSON value, as performed by a
template literal: arrays join their elements with commas (with `null`
elements rendered empty), objects render as `[object Object]`. -/
def jsDisplay : Json → String
  | Json.null => "null"
  | Json.bool b => cond b "true" "false"
  | Json.num n => toString n
  | Json.str s => s
  | Json.arr elems => jsDisplayElems elems
  | Json.obj _ => "[object Object]"

/-- Comma-joined rendering of array elements (`Array.prototype.join`),
where `null` elements render as the empty string. -/
def jsDisplayElems : List Json → String
  | [] => ""
  | [Json.null] => ""
  | [j] => jsDisplay j
  | Json.null :: rest => "," ++ jsDisplayElems rest
  | j :: rest => jsDisplay j ++ "," ++ jsDisplayElems rest

end

/-- JavaScript string conversion where the value may be `undefined`. -/
def jsDisplayU : Option Json → String
  | none => "undefined"
  | some j => jsDisplay j

/-- JavaScript `ToNumber` on a string, restricted to decimal integer
spellings (the only spellings relevant to comparisons against `200`):
the trimmed empty string converts to `0`, a decimal integer converts to
its value, anything else is `NaN` (modelled by `none`). -/
def jsToNumber? (s : String) : Option Int :=
  let t := s.trim
  if t = "" then some 0 else t.toInt?

/-- JavaScript loose equality `v == n` between a possibly-undefined JSON
value and an integer literal: `undefined` and `null` are never loosely
equal to a number; booleans and strings are converted with `ToNumber`;
arrays are converted via their string rendering; plain objects convert to
`[object Object]`, i.e. `NaN`. -/
def jsLooseEqNum : Option Json → Int → Bool
  | none, _ => false
  | some Json.null, _ => false
  | some (Json.bool b), n => (cond b 1 0) == n
  | some (Json.num m), n => m == n
  | some (Json.str s), n => jsToNumber? s == some n
  | some (Json.arr elems), n => jsToNumber? (jsDisplayElems elems) == some n
  | some (Json.obj _), _ => false

/-- Exception-propagating map over a list, modelling
`Array.prototype.map` with a callback that can throw (the exception of
the first failing element propagates) as well as the `for..of`+`push`
loop of `FindGroups`. -/
def mapExcept {α β ε : Type} (f : α → Except ε β) : List α → Except ε (List β)
  | [] => Except.ok []
  | x :: xs =>
      (f x).bind fun y =>
      (mapExcept f xs).bind fun ys =>
      Except.ok (y :: ys)

/-- The `for..of` iteration source: arrays iterate their elements, strings
iterate their characters (as one-character strings), everything else
throws `TypeError: x is not iterable`. -/
def jsForOf : Option Json → Except JsError (List Json)
  | some (Json.arr elems) => Except.ok elems
  | some (Json.str s) =>
      Except.ok (s.toList.map fun c => Json.str (String.mk [c]))
  | none => Except.error (JsError.typeError "undefined is not iterable")
  | some _ => Except.error (JsError.typeError "value is not iterable")

/-- The `Attachment` record of `types/Attachment.ts`; at runtime the
projected fields hold whatever the input held, possibly `undefined`. -/
structure Attachment where
  type : Option Json
  url : Option Json

/-- Embedding of `parseAttachment` (`types/Attachment.ts`): projects
`json['type']` and `json['url']`; property access throws on `null`. -/
def parseAttachment (json : Json) : Except JsError Attachment :=
  (jsIndex json "type").bind fun t =>
  (jsIndex json "url").bind fun u =>
  Except.ok { type := t, url := u }

/-- The `Callback` record of `types/Callback.ts`. -/
structure Callback where
  attachments : List Attachment
  avatar_url : Option Json
  created_at : Option Json
  group_id : Option Json
  id : Option Json
  name : Option Json
  sender_id : Option Json
  sender_type : Option Json
  source_guid : Option Json
  system : Option Json
  text : Option Json
  user_id : Option Json

/-- The call `json['attachments'].map(parseAttachment)`: calling `.map`
on `undefined` or on a non-array value throws a `TypeError`; on an array
it maps `parseAttachment` over the elements, propagating any exception. -/
def jsMapAttachments : Option Json → Except JsError (List Attachment)
  | some (Json.arr elems) => mapExcept parseAttachment elems
  | none =>
      Except.error (JsError.typeError
        "Cannot read properties of undefined (reading map)")
  | some _ =>
      Except.error (JsError.typeError
        "json.attachments.map is not a function")

/-- Embedding of `parseCallback` (`types/Callback.ts`): the `attachments`
field is computed first (object literal evaluation order), so its
exception, if any, is the one that propagates; all other fields are plain
projections. -/
def parseCallback (json : Json) : Except JsError Callback :=
  (jsIndex json "attachments").bind fun attachmentsField =>
  (jsMapAttachments attachmentsField).bind fun attachments =>
  (jsIndex json "avatar_url").bind fun avatar_url =>
  (jsIndex json "created_at").bind fun created_at =>
  (jsIndex json "group_id").bind fun group_id =>
  (jsIndex json "id").bind fun idField =>
  (jsIndex json "name").bind fun nameField =>
  (jsIndex json "sender_id").bind fun sender_id =>
  (jsIndex json "sender_type").bind fun sender_type =>
  (jsIndex json "source_guid").bind fun source_guid =>
  (jsIndex json "system").bind fun systemField =>
  (jsIndex json "text").bind fun textField =>
  (jsIndex json "user_id").bind fun user_id =>
  Except.ok
    { attachments := attachments
      avatar_url := avatar_url
      created_at := created_at
      group_id := group_id
      id := idField
      name := nameField
      sender_id := sender_id
      sender_type := sender_type
      source_guid := source_guid
      system := systemField
      text := textField
      user_id := user_id }

/-- The `Group` record of `types/Group.ts` (17 documented fields); named
`GmGroup` here because `Group` is taken by the mathematics library. -/
structure GmGroup where
  id : Option Json
  group_id : Option Json
  name : Option Json
  phone_number : Option Json
  type : Option Json
  description : Option Json
  image_url : Option Json
  creator_user_id : Option Json
  created_at : Option Json
  updated_at : Option Json
  max_members : Option Json
  theme_name : Option Json
  requires_approval : Option Json
  show_join_question : Option Json
  share_url : Option Json
  member_count : Option Json
  message_count : Option Json

/-- Embedding of `parseGroup` (`types/Group.ts`): seventeen plain
projections, in source order. -/
def parseGroup (json : Json) : Except JsError GmGroup :=
  (jsIndex json "id").bind fun idField =>
  (jsIndex json "group_id").bind fun group_id =>
  (jsIndex json "name").bind fun nameField =>
  (jsIndex json "phone_number").bind fun phone_number =>
  (jsIndex json "type").bind fun typeField =>
  (jsIndex json "description").bind fun description =>
  (jsIndex json "image_url").bind fun image_url =>
  (jsIndex json "creator_user_id").bind fun creator_user_id =>
  (jsIndex json "created_at").bind fun created_at =>
  (jsIndex json "updated_at").bind fun updated_at =>
  (jsIndex json "max_members").bind fun max_members =>
  (jsIndex json "theme_name").bind fun theme_name =>
  (jsIndex json "requires_approval").bind fun requires_approval =>
  (jsIndex json "show_join_question").bind fun show_join_question =>
  (jsIndex json "share_url").bind fun share_url =>
  (jsIndex json "member_count").bind fun member_count =>
  (jsIndex json "message_count").bind fun message_count =>
  Except.ok
    { id := idField
      group_id := group_id
      name := nameField
      phone_number := phone_number
      type := typeField
      description := description
      image_url := image_url
      creator_user_id := creator_user_id
      created_at := created_at
      updated_at := updated_at
      max_members := max_members
      theme_name := theme_name
      requires_approval := requires_approval
      show_join_question := show_join_question
      share_url := share_url
      member_count := member_count
      message_count := message_count }

/-- The record `parseGroup` builds from an object input: each field is
the same-named lookup in the input mapping. -/
def groupOfFields (fields : List (String × Json)) : GmGroup :=
  { id := fields.lookup "id"
    group_id := fields.lookup "group_id"
    name := fields.lookup "name"
    phone_number := fields.lookup "phone_number"
    type := fields.lookup "type"
    description := fields.lookup "description"
    image_url := fields.lookup "image_url"
    creator_user_id := fields.lookup "creator_user_id"
    created_at := fields.lookup "created_at"
    updated_at := fields.lookup "updated_at"
    max_members := fields.lookup "max_members"
    theme_name := fields.lookup "theme_name"
    requires_approval := fields.lookup "requires_approval"
    show_join_question := fields.lookup "show_join_question"
    share_url := fields.lookup "share_url"
    member_count := fields.lookup "member_count"
    message_count := fields.lookup "message_count" }

/-- Embedding of `GroupMe.FindGroups` as a function of the stubbed HTTP
response: `status` is `response.status` and `data` is `response.data`.
Mirrors the source control flow: status check, `json['meta']['code']`
check (unguarded chained access, loose `!= 200`), then a `for..of` loop
pushing `parseGroup` of every element of `json['response']`. -/
def findGroups (status : Nat) (data : Json) : Except JsError (List GmGroup) :=
  if status != 200 then
    Except.error (JsError.error
      ("Invalid server status code. Expected 200, received: " ++ toString status))
  else
    (jsIndex data "meta").bind fun meta =>
    (jsIndexU meta "code").bind fun code =>
    if !(jsLooseEqNum code 200) then
      Except.error (JsError.error
        ("Invalid meta code. Expected 200, received: " ++ jsDisplayU code))
    else
      (jsIndex data "response").bind fun responseField =>
      (jsForOf responseField).bind fun raws =>
      mapExcept parseGroup raws

/-- Embedding of `GroupMe.SendMessage` as a function of the message text
and the status code the stubbed HTTP client returns for the POST to
`/v3/bots/post`: expects `202`. -/
def sendMessage (content : String) (status : Nat) : Except JsError Bool :=
  if status != 202 then
    Except.error (JsError.error
      ("Invalid server status code. Expected 202, received: " ++ toString status))
  else
    Except.ok true

/-- Embedding of `GroupMe.DeleteMessage` as a function of its arguments
and the stubbed status for the DELETE request: expects `204`. -/
def deleteMessage (group_id message_id : String) (status : Nat) :
    Except JsError Bool :=
  if status != 204 then
    Except.error (JsError.error
      ("Invalid server status code. Expected 204, received: " ++ toString status))
  else
    Except.ok true

/-- Embedding of `GroupMe.LikeMessage` as a function of its arguments and
the stubbed status for the POST to the like endpoint: expects `200`. -/
def likeMessage (conversation_id message_id : String) (status : Nat) :
    Except JsError Bool :=
  if status != 200 then
    Except.error (JsError.error
      ("Invalid server status code. Expected 200, received: " ++ toString status))
  else
    Except.ok true

/-- Embedding of `GroupMe.UnlikeMessage` as a function of its arguments
and the stubbed status for the POST to the unlike endpoint: expects `200`. -/
def unlikeMessage (conversation_id message_id : String) (status : Nat) :
    Except JsError Bool :=
  if status != 200 then
    Except.error (JsError.error
      ("Invalid server status code. Expected 200, received: " ++ toString status))
  else
    Except.ok true

/-- Embedding of `GroupMe.UpdateNickname` as a function of its arguments
and the stubbed status for the membership-update POST: expects `200`. -/
def updateNickname (group_id nickname : String) (status : Nat) :
    Except JsError Bool :=
  if status != 200 then
    Except.error (JsError.error
      ("Invalid server status code. Expected 200, received: " ++ toString status))
  else
    Except.ok true

/-- Events the `GroupMe` emitter can publish. The current client
(`src/groupme/GroupMe.ts`) emits `raw_callback` and the three
sender-type-specific events; the older variant kept in the repository
emits `raw_callback` and the generic `callback` event. -/
inductive GmEvent where
  | raw_callback (body : Json) : GmEvent
  | callback (cb : Callback) : GmEvent
  | user_msg (cb : Callback) : GmEvent
  | system_msg (cb : Callback) : GmEvent
  | bot_msg (cb : Callback) : GmEvent
  | ready : GmEvent

/-- An HTTP response produced by the Express route handler. -/
structure HttpResponse where
  status : Nat
  body : String

/-- The `switch (callback.sender_type)` dispatch of `Start`
(`src/groupme/GroupMe.ts`): a strict-equality match against the three
string literals, with no default case. -/
def dispatchSpecific (cb : Callback) : List GmEvent :=
  match cb.sender_type with
  | some (Json.str "user") => [GmEvent.user_msg cb]
  | some (Json.str "system") => [GmEvent.system_msg cb]
  | some (Json.str "bot") => [GmEvent.bot_msg cb]
  | _ => []

/-- Embedding of the `app.post` handler of `Start` in the current client
(`src/groupme/GroupMe.ts`): emit `raw_callback` with the untyped body,
parse the body, dispatch the sender-type-specific event, then respond
`200` with an empty body. When `parseCallback` throws, the handler is
aborted at that point: the events emitted so far stand, and no response
is produced by the handler (the second component is `none`; the web
framework's own error handling, not this code, answers the request). -/
def handlePost (body : Json) : List GmEvent × Option HttpResponse :=
  match parseCallback body with
  | Except.error _ => ([GmEvent.raw_callback body], none)
  | Except.ok cb =>
      (GmEvent.raw_callback body :: dispatchSpecific cb,
       some { status := 200, body := "" })

/-- Embedding of the `app.post` handler of `Start` in the older client
variant kept in the repository: emit `raw_callback` with the untyped
body, then the generic `callback` event with the parsed record, then
respond `200` with an empty body; no sender-type dispatch. -/
def handlePostLegacy (body : Json) : List GmEvent × Option HttpResponse :=
  match parseCallback body with
  | Except.error _ => ([GmEvent.raw_callback body], none)
  | Except.ok cb =>
      ([GmEvent.raw_callback body, GmEvent.callback cb],
       some { status := 200, body := "" })

/-- Recognizer for the three sender-type-specific events. -/
def isSpecificEvent : GmEvent → Bool
  | GmEvent.user_msg _ => true
  | GmEvent.system_msg _ => true
  | GmEvent.bot_msg _ => true
  | _ => false

/-- Recognizer for the generic `callback` event. -/
def isCallbackEvent : GmEvent → Bool
  | GmEvent.callback _ => true
  | _ => false

/-- Recognizer for the `raw_callback` event. -/
def isRawCallbackEvent : GmEvent → Bool
  | GmEvent.raw_callback _ => true
  | _ => false

/-- Recognizer for the `user_msg` event. -/
def isUserMsgEvent : GmEvent → Bool
  | GmEvent.user_msg _ => true
  | _ => false

/-- Recognizer for the `system_msg` event. -/
def isSystemMsgEvent : GmEvent → Bool
  | GmEvent.system_msg _ => true
  | _ => false

/-- Recognizer for the `bot_msg` event. -/
def isBotMsgEvent : GmEvent → Bool
  | GmEvent.bot_msg _ => true
  | _ => false

/-- The record `parseCallback` builds from an object input once the
attachments have been mapped: every other field is the same-named lookup
in the input mapping. -/
def callbackOfObj (fields : List (String × Json)) (attachments : List Attachment) :
    Callback :=
  { attachments := attachments
    avatar_url := fields.lookup "avatar_url"
    created_at := fields.lookup "created_at"
    group_id := fields.lookup "group_id"
    id := fields.lookup "id"
    name := fields.lookup "name"
    sender_id := fields.lookup "sender_id"
    sender_type := fields.lookup "sender_type"
    source_guid := fields.lookup "source_guid"
    system := fields.lookup "system"
    text := fields.lookup "text"
    user_id := fields.lookup "user_id" }

/-! Helper lemmas about the embedding. -/

theorem except_isOk_iff {ε α : Type} (e : Except ε α) :
    e.isOk = true ↔ ∃ a, e = Except.ok a := by
  cases e <;> simp [Except.isOk, Except.toBool]

theorem jsIndex_ok_of_ne_null (j : Json) (k : String) (h : j ≠ Json.null) :
    ∃ v, jsIndex j k = Except.ok v := by
  cases j <;> simp [jsIndex] at h ⊢

theorem parseAttachment_isOk_iff (j : Json) :
    (parseAttachment j).isOk = true ↔ j ≠ Json.null := by
  cases j <;> simp [parseAttachment, jsIndex, Except.bind, Except.isOk, Except.toBool]

theorem mapExcept_isOk_iff {α β ε : Type} (f : α → Except ε β) (xs : List α) :
    (mapExcept f xs).isOk = true ↔ ∀ x ∈ xs, (f x).isOk = true := by
  induction xs with
  | nil => simp [mapExcept, Except.isOk, Except.toBool]
  | cons x xs ih =>
      cases hf : f x with
      | error e =>
          simp [mapExcept, hf, Except.bind, Except.isOk, Except.toBool]
      | ok y =>
          cases hm : mapExcept f xs with
          | error e =>
              simp [mapExcept, hf, hm, Except.bind, Except.isOk, Except.toBool] at ih ⊢
              exact ih
          | ok ys =>
              simp [mapExcept, hf, hm, Except.bind, Except.isOk, Except.toBool] at ih ⊢
              exact ih

theorem mapExcept_ok_spec {α β ε : Type} (f : α → Except ε β) :
    ∀ (xs : List α) (ys : List β), mapExcept f xs = Except.ok ys →
      ys.length = xs.length ∧ ∀ i, i < xs.length →
        (xs[i]?).map f = (ys[i]?).map Except.ok := by
  intro xs
  induction xs with
  | nil =>
      intro ys h
      simp [mapExcept] at h
      subst h
      simp
  | cons x xs ih =>
      intro ys h
      cases hf : f x with
      | error e => simp [mapExcept, hf, Except.bind] at h
      | ok y =>
          cases hm : mapExcept f xs with
          | error e => simp [mapExcept, hf, hm, Except.bind] at h
          | ok ys' =>
              simp [mapExcept, hf, hm, Except.bind] at h
              subst h
              obtain ⟨hlen, hpt⟩ := ih ys' hm
              refine ⟨by simp [hlen], ?_⟩
              intro i hi
              cases i with
              | zero => simp [hf]
              | succ n =>
                  simp only [List.getElem?_cons_succ]
                  exact hpt n (Nat.lt_of_succ_lt_succ hi)

theorem parseGroup_obj (fields : List (String × Json)) :
    parseGroup (Json.obj fields) = Except.ok (groupOfFields fields) := rfl

theorem mapExcept_parseGroup_objs (fss : List (List (String × Json))) :
    mapExcept parseGroup (fss.map Json.obj) = Except.ok (fss.map groupOfFields) := by
  induction fss with
  | nil => rfl
  | cons fs fss ih => simp [mapExcept, parseGroup_obj, ih, Except.bind]

theorem parseCallback_obj_ok (fields : List (String × Json)) (atts : List Attachment)
    (h : jsMapAttachments (fields.lookup "attachments") = Except.ok atts) :
    parseCallback (Json.obj fields) = Except.ok (callbackOfObj fields atts) := by
  simp [parseCallback, jsIndex, h, Except.bind, callbackOfObj]

theorem parseCallback_obj_err (fields : List (String × Json)) (e : JsError)
    (h : jsMapAttachments (fields.lookup "attachments") = Except.error e) :
    parseCallback (Json.obj fields) = Except.error e := by
  simp [parseCallback, jsIndex, h, Except.bind]

/-- C4 (amended): parseCallback fails if and only if the input's
`attachments` field is missing, not a sequence, or a sequence containing
a `null` element (whose own field access then throws); for every input
whose `attachments` field is a sequence of non-null values it succeeds
even when every other field is absent, and a missing `attachments` field
is never silently replaced by an empty sequence. -/
theorem C4_parseCallback_failure_iff (j : Json) :
    (parseCallback j).isOk = true ↔
      ∃ elems, jsIndex j "attachments" = Except.ok (some (Json.arr elems)) ∧
        ∀ x ∈ elems, x ≠ Json.null := by
  cases j with
  | null => simp [parseCallback, jsIndex, Except.bind, Except.isOk, Except.toBool]
  | bool b =>
      simp [parseCallback, jsIndex, jsMapAttachments, Except.bind, Except.isOk,
        Except.toBool]
  | num n =>
      simp [parseCallback, jsIndex, jsMapAttachments, Except.bind, Except.isOk,
        Except.toBool]
  | str s =>
      simp [parseCallback, jsIndex, jsMapAttachments, Except.bind, Except.isOk,
        Except.toBool]
  | arr elems =>
      simp [parseCallback, jsIndex, jsMapAttachments, Except.bind, Except.isOk,
        Except.toBool]
  | obj fields =>
      cases hv : fields.lookup "attachments" with
      | none =>
          simp [parseCallback, jsIndex, hv, jsMapAttachments, Except.bind,
            Except.isOk, Except.toBool]
      | some v =>
          cases v with
          | arr elems =>
              have hiff : (parseCallback (Json.obj fields)).isOk
                  = (mapExcept parseAttachment elems).isOk := by
                cases hm : mapExcept parseAttachment elems with
                | error e =>
                    rw [parseCallback_obj_err fields e
                      (by simp [jsMapAttachments, hv, hm])]
                    simp [Except.isOk, Except.toBool]
                | ok atts =>
                    rw [parseCallback_obj_ok fields atts
                      (by simp [jsMapAttachments, hv, hm])]
                    simp [Except.isOk, Except.toBool]
              rw [hiff, mapExcept_isOk_iff]
              simp [jsIndex, hv, parseAttachment_isOk_iff]
          | null =>
              simp [parseCallback, jsIndex, hv, jsMapAttachments, Except.bind,
                Except.isOk, Except.toBool]
          | bool b =>
              simp [parseCallback, jsIndex, hv, jsMapAttachments, Except.bind,
                Except.isOk, Except.toBool]
          | num n =>
              simp [parseCallback, jsIndex, hv, jsMapAttachments, Except.bind,
                Except.isOk, Except.toBool]
          | str s =>
              simp [parseCallback, jsIndex, hv, jsMapAttachments, Except.bind,
                Except.isOk, Except.toBool]
          | obj fields2 =>
              simp [parseCallback, jsIndex, hv, jsMapAttachments, Except.bind,
                Except.isOk, Except.toBool]

/-- C4 counterexample: an input whose `attachments` field IS a sequence
(of length one, holding `null`) on which parseCallback nevertheless
fails, refuting the claimed equivalence "fails iff `attachments` is
missing or not a sequence". -/
theorem C4_counterexample :
    jsIndex (Json.obj [("attachments", Json.arr [Json.null])]) "attachments"
      = Except.ok (some (Json.arr [Json.null])) ∧
    (parseCallback (Json.obj [("attachments", Json.arr [Json.null])])).isOk = false :=
  ⟨rfl, rfl⟩

/-- C5 (amended): for every input whose `attachments` field is a sequence
of length N containing no `null` element, parseCallback returns a record
whose `attachments` sequence has length N and whose i-th element is the
(successful) result of parseAttachment on the i-th input element, in the
same order. -/
theorem C5_parseCallback_maps_attachments (j : Json) (elems : List Json)
    (h : jsIndex j "attachments" = Except.ok (some (Json.arr elems)))
    (hnn : ∀ x ∈ elems, x ≠ Json.null) :
    ∃ cb, parseCallback j = Except.ok cb ∧
      cb.attachments.length = elems.length ∧
      ∀ i, i < elems.length →
        (elems[i]?).map parseAttachment = (cb.attachments[i]?).map Except.ok := by
  cases j with
  | null => simp [jsIndex] at h
  | bool b => simp [jsIndex] at h
  | num n => simp [jsIndex] at h
  | str s => simp [jsIndex] at h
  | arr es => simp [jsIndex] at h
  | obj fields =>
      have hv : fields.lookup "attachments" = some (Json.arr elems) := by
        simpa [jsIndex] using h
      have hok : (mapExcept parseAttachment elems).isOk = true :=
        (mapExcept_isOk_iff _ _).mpr
          (fun x hx => (parseAttachment_isOk_iff x).mpr (hnn x hx))
      obtain ⟨atts, hm⟩ := (except_isOk_iff _).mp hok
      refine ⟨callbackOfObj fields atts,
        parseCallback_obj_ok fields atts (by simp [jsMapAttachments, hv, hm]),
        ?_, ?_⟩
      · simpa [callbackOfObj] using (mapExcept_ok_spec parseAttachment elems atts hm).1
      · intro i hi
        simpa [callbackOfObj] using
          (mapExcept_ok_spec parseAttachment elems atts hm).2 i hi

/-- C5 counterexample: an input whose `attachments` field is a sequence
of length two yet on which parseCallback returns no record at all (the
`null` element's field access throws), refuting the claim that for every
input with an `attachments` sequence of length N the returned record has
an `attachments` sequence of length N. -/
theorem C5_counterexample :
    jsIndex (Json.obj [("attachments", Json.arr [Json.null, Json.obj []])])
        "attachments"
      = Except.ok (some (Json.arr [Json.null, Json.obj []])) ∧
    parseCallback (Json.obj [("attachments", Json.arr [Json.null, Json.obj []])])
      = Except.error
          (JsError.typeError "Cannot read properties of null (reading type)") :=
  ⟨rfl, rfl⟩

/-- C5 witness: the amended theorem applied to a concrete input with a
two-element attachments array. -/
theorem C5_witness :
    ∃ cb,
      parseCallback
          (Json.obj [("attachments",
            Json.arr [Json.obj [("type", Json.str "image"), ("url", Json.str "u")],
                      Json.obj []])])
        = Except.ok cb ∧
      cb.attachments.length
        = [Json.obj [("type", Json.str "image"), ("url", Json.str "u")],
           Json.obj []].length ∧
      ∀ i, i < [Json.obj [("type", Json.str "image"), ("url", Json.str "u")],
                Json.obj []].length →
        ([Json.obj [("type", Json.str "image"), ("url", Json.str "u")],
          Json.obj []][i]?).map parseAttachment
          = (cb.attachments[i]?).map Except.ok :=
  C5_parseCallback_maps_attachments _ _ rfl (by
    intro x hx
    simp only [List.mem_cons, List.not_mem_nil, or_false] at hx
    rcases hx with h | h <;> simp [h])

/-- C7: parseGroup is a total, field-exact projection on mappings: it
always succeeds on an object input and each of the seventeen documented
output fields equals the same-named field of the input mapping, with no
transformation, coercion, or default substitution. -/
theorem C7_parseGroup_projection (fields : List (String × Json)) :
    ∃ g, parseGroup (Json.obj fields) = Except.ok g ∧
      g.id = fields.lookup "id" ∧
      g.group_id = fields.lookup "group_id" ∧
      g.name = fields.lookup "name" ∧
      g.phone_number = fields.lookup "phone_number" ∧
      g.type = fields.lookup "type" ∧
      g.description = fields.lookup "description" ∧
      g.image_url = fields.lookup "image_url" ∧
      g.creator_user_id = fields.lookup "creator_user_id" ∧
      g.created_at = fields.lookup "created_at" ∧
      g.updated_at = fields.lookup "updated_at" ∧
      g.max_members = fields.lookup "max_members" ∧
      g.theme_name = fields.lookup "theme_name" ∧
      g.requires_approval = fields.lookup "requires_approval" ∧
      g.show_join_question = fields.lookup "show_join_question" ∧
      g.share_url = fields.lookup "share_url" ∧
      g.member_count = fields.lookup "member_count" ∧
      g.message_count = fields.lookup "message_count" :=
  ⟨groupOfFields fields, rfl, rfl, rfl, rfl, rfl, rfl, rfl, rfl, rfl, rfl, rfl,
    rfl, rfl, rfl, rfl, rfl, rfl, rfl⟩

/-- C3: each boolean-returning REST operation resolves successfully if
and only if the stubbed HTTP status equals its documented expected code
(202 for SendMessage, 204 for DeleteMessage, 200 for LikeMessage,
UnlikeMessage and UpdateNickname), and otherwise raises an error whose
message contains both the expected and the actual status code. -/
theorem C3_rest_status_contracts
    (content group_id message_id conversation_id nickname : String) (S : Nat) :
    ((sendMessage content S).isOk = true ↔ S = 202) ∧
    (S ≠ 202 → ∃ a b, sendMessage content S
        = Except.error (JsError.error (a ++ toString 202 ++ b ++ toString S))) ∧
    ((deleteMessage group_id message_id S).isOk = true ↔ S = 204) ∧
    (S ≠ 204 → ∃ a b, deleteMessage group_id message_id S
        = Except.error (JsError.error (a ++ toString 204 ++ b ++ toString S))) ∧
    ((likeMessage conversation_id message_id S).isOk = true ↔ S = 200) ∧
    (S ≠ 200 → ∃ a b, likeMessage conversation_id message_id S
        = Except.error (JsError.error (a ++ toString 200 ++ b ++ toString S))) ∧
    ((unlikeMessage conversation_id message_id S).isOk = true ↔ S = 200) ∧
    (S ≠ 200 → ∃ a b, unlikeMessage conversation_id message_id S
        = Except.error (JsError.error (a ++ toString 200 ++ b ++ toString S))) ∧
    ((updateNickname group_id nickname S).isOk = true ↔ S = 200) ∧
    (S ≠ 200 → ∃ a b, updateNickname group_id nickname S
        = Except.error (JsError.error (a ++ toString 200 ++ b ++ toString S))) := by
  refine ⟨?_, ?_, ?_, ?_, ?_, ?_, ?_, ?_, ?_, ?_⟩
  · by_cases h : S = 202
    · subst h; simp [sendMessage, Except.isOk, Except.toBool]
    · simp [sendMessage, h, Except.isOk, Except.toBool]
  · intro h
    refine ⟨"Invalid server status code. Expected ", ", received: ", ?_⟩
    unfold sendMessage
    rw [if_pos (by simpa using h)]
    rfl
  · by_cases h : S = 204
    · subst h; simp [deleteMessage, Except.isOk, Except.toBool]
    · simp [deleteMessage, h, Except.isOk, Except.toBool]
  · intro h
    refine ⟨"Invalid server status code. Expected ", ", received: ", ?_⟩
    unfold deleteMessage
    rw [if_pos (by simpa using h)]
    rfl
  · by_cases h : S = 200
    · subst h; simp [likeMessage, Except.isOk, Except.toBool]
    · simp [likeMessage, h, Except.isOk, Except.toBool]
  · intro h
    refine ⟨"Invalid server status code. Expected ", ", received: ", ?_⟩
    unfold likeMessage
    rw [if_pos (by simpa using h)]
    rfl
  · by_cases h : S = 200
    · subst h; simp [unlikeMessage, Except.isOk, Except.toBool]
    · simp [unlikeMessage, h, Except.isOk, Except.toBool]
  · intro h
    refine ⟨"Invalid server status code. Expected ", ", received: ", ?_⟩
    unfold unlikeMessage
    rw [if_pos (by simpa using h)]
    rfl
  · by_cases h : S = 200
    · subst h; simp [updateNickname, Except.isOk, Except.toBool]
    · simp [updateNickname, h, Except.isOk, Except.toBool]
  · intro h
    refine ⟨"Invalid server status code. Expected ", ", received: ", ?_⟩
    unfold updateNickname
    rw [if_pos (by simpa using h)]
    rfl

/-- C3 witness: the contract applied to concrete stub statuses, with the
success case at 202 and each error case at 500. -/
theorem C3_rest_status_contracts_witness :
    (sendMessage "hello" 202).isOk = true
    ∧ (∃ a b, sendMessage "hello" 500
        = Except.error (JsError.error (a ++ toString 202 ++ b ++ toString 500)))
    ∧ (∃ a b, deleteMessage "g" "m" 500
        = Except.error (JsError.error (a ++ toString 204 ++ b ++ toString 500)))
    ∧ (∃ a b, likeMessage "c" "m" 500
        = Except.error (JsError.error (a ++ toString 200 ++ b ++ toString 500)))
    ∧ (∃ a b, unlikeMessage "c" "m" 500
        = Except.error (JsError.error (a ++ toString 200 ++ b ++ toString 500)))
    ∧ (∃ a b, updateNickname "g" "Steve" 500
        = Except.error (JsError.error (a ++ toString 200 ++ b ++ toString 500))) :=
  ⟨(C3_rest_status_contracts "hello" "g" "m" "c" "Steve" 202).1.mpr rfl,
   (C3_rest_status_contracts "hello" "g" "m" "c" "Steve" 500).2.1 (by decide),
   (C3_rest_status_contracts "hello" "g" "m" "c" "Steve" 500).2.2.2.1 (by decide),
   (C3_rest_status_contracts "hello" "g" "m" "c" "Steve" 500).2.2.2.2.2.1 (by decide),
   (C3_rest_status_contracts "hello" "g" "m" "c" "Steve" 500).2.2.2.2.2.2.2.1 (by decide),
   (C3_rest_status_contracts "hello" "g" "m" "c" "Steve" 500).2.2.2.2.2.2.2.2.2 (by decide)⟩

/-- C10: no boolean-returning REST operation can ever resolve to `false`:
for every stub status each operation either resolves to `true` or raises
an error, so a caller can never observe a `false` result. -/
theorem C10_rest_ops_never_false
    (content group_id message_id conversation_id nickname : String) (S : Nat) :
    (sendMessage content S = Except.ok true
      ∨ ∃ e, sendMessage content S = Except.error e) ∧
    (deleteMessage group_id message_id S = Except.ok true
      ∨ ∃ e, deleteMessage group_id message_id S = Except.error e) ∧
    (likeMessage conversation_id message_id S = Except.ok true
      ∨ ∃ e, likeMessage conversation_id message_id S = Except.error e) ∧
    (unlikeMessage conversation_id message_id S = Except.ok true
      ∨ ∃ e, unlikeMessage conversation_id message_id S = Except.error e) ∧
    (updateNickname group_id nickname S = Except.ok true
      ∨ ∃ e, updateNickname group_id nickname S = Except.error e) := by
  refine ⟨?_, ?_, ?_, ?_, ?_⟩
  · cases hb : S != 202 <;> simp [sendMessage, hb]
  · cases hb : S != 204 <;> simp [deleteMessage, hb]
  · cases hb : S != 200 <;> simp [likeMessage, hb]
  · cases hb : S != 200 <;> simp [unlikeMessage, hb]
  · cases hb : S != 200 <;> simp [updateNickname, hb]

/-- C6 (amended): FindGroups fails with the documented expected-200
status error when the HTTP status differs from 200; with status 200 and
a numeric meta code other than 200 it fails with the documented
expected-200 meta-code error; and with status 200, meta code 200 and a
`response` array of mappings it returns parseGroup of each element,
preserving length and order. (The original "if and only if" is refuted
by `C6_counterexample`: success additionally requires the `response`
field to be present and iterable.) -/
theorem C6_findGroups_contract (st : Nat) (body : Json) (mc : Int)
    (raws : List Json) (fss : List (List (String × Json)))
    (hst : st ≠ 200) (hmc : mc ≠ 200) :
    findGroups st body
      = Except.error (JsError.error
          ("Invalid server status code. Expected 200, received: " ++ toString st)) ∧
    findGroups 200
        (Json.obj [("meta", Json.obj [("code", Json.num mc)]),
                   ("response", Json.arr raws)])
      = Except.error (JsError.error
          ("Invalid meta code. Expected 200, received: " ++ toString mc)) ∧
    findGroups 200
        (Json.obj [("meta", Json.obj [("code", Json.num 200)]),
                   ("response", Json.arr (fss.map Json.obj))])
      = Except.ok (fss.map groupOfFields) := by
  refine ⟨?_, ?_, ?_⟩
  · unfold findGroups
    rw [if_pos (by simpa using hst)]
  · have hbe : (mc == 200) = false := by simpa using hmc
    simp [findGroups, jsIndex, jsIndexU, jsLooseEqNum, jsDisplayU, jsDisplay,
      List.lookup, hbe, Except.bind]
  · simp [findGroups, jsIndex, jsIndexU, jsLooseEqNum, List.lookup, Except.bind,
      jsForOf, mapExcept_parseGroup_objs]

/-- C6 counterexample: HTTP status 200 and meta code 200, yet FindGroups
fails (with a TypeError, not a documented error) because the body has no
`response` field, refuting the claimed "if and only if". -/
theorem C6_counterexample :
    findGroups 200 (Json.obj [("meta", Json.obj [("code", Json.num 200)])])
      = Except.error (JsError.typeError "undefined is not iterable") := rfl

/-- C6 witness: the amended contract applied to status 500, meta code
404, and a one-group envelope whose parsed record has name "G". -/
theorem C6_findGroups_contract_witness :
    findGroups 500 Json.null
      = Except.error (JsError.error
          ("Invalid server status code. Expected 200, received: " ++ toString 500)) ∧
    findGroups 200
        (Json.obj [("meta", Json.obj [("code", Json.num 404)]),
                   ("response", Json.arr [])])
      = Except.error (JsError.error
          ("Invalid meta code. Expected 200, received: " ++ toString (404 : Int))) ∧
    findGroups 200
        (Json.obj [("meta", Json.obj [("code", Json.num 200)]),
                   ("response", Json.arr ([[("name", Json.str "G")]].map Json.obj))])
      = Except.ok ([[("name", Json.str "G")]].map groupOfFields) :=
  C6_findGroups_contract 500 Json.null 404 [] [[("name", Json.str "G")]]
    (by decide) (by decide)

/-- C9 (amended): with HTTP status 200, when the body has no `meta` field
(or `meta` is null) the unguarded access `json['meta']['code']` throws a
TypeError that is not the documented meta-code error and carries no
expected-versus-actual message. (When `meta` is a non-null non-mapping
primitive, property access instead yields undefined and the documented
meta-code error fires, as `C9_counterexample` shows.) -/
theorem C9_missing_meta_typeerror (fs gs : List (String × Json))
    (h1 : fs.lookup "meta" = none) (h2 : gs.lookup "meta" = some Json.null) :
    findGroups 200 (Json.obj fs)
      = Except.error (JsError.typeError
          "Cannot read properties of undefined (reading code)") ∧
    findGroups 200 (Json.obj gs)
      = Except.error (JsError.typeError
          "Cannot read properties of null (reading code)") := by
  constructor
  · simp [findGroups, jsIndex, jsIndexU, h1, Except.bind]
  · simp [findGroups, jsIndex, jsIndexU, h2, Except.bind]

/-- C9 counterexample: `meta` present but not a mapping (the number 5):
property access on a number yields undefined rather than throwing, so
FindGroups fails with the documented meta-code error (which does carry an
expected-versus-actual message), refuting the claim for this case. -/
theorem C9_counterexample :
    findGroups 200 (Json.obj [("meta", Json.num 5), ("response", Json.arr [])])
      = Except.error (JsError.error
          "Invalid meta code. Expected 200, received: undefined") := rfl

/-- C9 witness: the amended theorem applied to a body with no fields at
all and to a body whose `meta` is null. -/
theorem C9_missing_meta_typeerror_witness :
    findGroups 200 (Json.obj [])
      = Except.error (JsError.typeError
          "Cannot read properties of undefined (reading code)") ∧
    findGroups 200 (Json.obj [("meta", Json.null)])
      = Except.error (JsError.typeError
          "Cannot read properties of null (reading code)") :=
  C9_missing_meta_typeerror [] [("meta", Json.null)] rfl rfl

/-- C1 (amended): in the current client, for every inbound POST body that
parses, a `sender_type` of "user" produces exactly one `user_msg` event
(and that is the only specific event), "system" exactly one `system_msg`,
"bot" exactly one `bot_msg` — always together with exactly one
`raw_callback` event — and any other `sender_type` produces zero specific
events and one `raw_callback` event; no generic `callback` event is ever
emitted by this handler (the generic `callback`/`raw_callback` pair of
the claim exists only in the older variant, which in turn emits no
specific events). -/
theorem C1_dispatch_events (body : Json) (cb : Callback)
    (h : parseCallback body = Except.ok cb) :
    (cb.sender_type = some (Json.str "user") →
      ((handlePost body).1.countP isUserMsgEvent = 1
        ∧ (handlePost body).1.countP isSpecificEvent = 1
        ∧ (handlePost body).1.countP isRawCallbackEvent = 1
        ∧ (handlePost body).1.countP isCallbackEvent = 0)) ∧
    (cb.sender_type = some (Json.str "system") →
      ((handlePost body).1.countP isSystemMsgEvent = 1
        ∧ (handlePost body).1.countP isSpecificEvent = 1
        ∧ (handlePost body).1.countP isRawCallbackEvent = 1
        ∧ (handlePost body).1.countP isCallbackEvent = 0)) ∧
    (cb.sender_type = some (Json.str "bot") →
      ((handlePost body).1.countP isBotMsgEvent = 1
        ∧ (handlePost body).1.countP isSpecificEvent = 1
        ∧ (handlePost body).1.countP isRawCallbackEvent = 1
        ∧ (handlePost body).1.countP isCallbackEvent = 0)) ∧
    (cb.sender_type ≠ some (Json.str "user") →
     cb.sender_type ≠ some (Json.str "system") →
     cb.sender_type ≠ some (Json.str "bot") →
      ((handlePost body).1.countP isSpecificEvent = 0
        ∧ (handlePost body).1.countP isRawCallbackEvent = 1
        ∧ (handlePost body).1.countP isCallbackEvent = 0)) := by
  have hev : (handlePost body).1
      = GmEvent.raw_callback body :: dispatchSpecific cb := by
    simp [handlePost, h]
  refine ⟨?_, ?_, ?_, ?_⟩
  · intro hs
    simp [hev, dispatchSpecific, hs, List.countP_cons, List.countP_nil,
      isUserMsgEvent, isSpecificEvent, isRawCallbackEvent, isCallbackEvent]
  · intro hs
    simp [hev, dispatchSpecific, hs, List.countP_cons, List.countP_nil,
      isSystemMsgEvent, isSpecificEvent, isRawCallbackEvent, isCallbackEvent]
  · intro hs
    simp [hev, dispatchSpecific, hs, List.countP_cons, List.countP_nil,
      isBotMsgEvent, isSpecificEvent, isRawCallbackEvent, isCallbackEvent]
  · intro h1 h2 h3
    have hd : dispatchSpecific cb = [] := by
      unfold dispatchSpecific
      split <;> simp_all
    simp [hev, hd, List.countP_cons, List.countP_nil, isSpecificEvent,
      isRawCallbackEvent, isCallbackEvent]

/-- C1 counterexample: a POST body with `sender_type` "user": the current
handler emits zero generic `callback` events (the claim demands exactly
one `callback`/`raw_callback` pair), while the older variant's handler
emits zero specific events (the claim demands exactly one). -/
theorem C1_counterexample :
    (handlePost (Json.obj [("attachments", Json.arr []),
        ("sender_type", Json.str "user")])).1.countP isCallbackEvent = 0 ∧
    (handlePostLegacy (Json.obj [("attachments", Json.arr []),
        ("sender_type", Json.str "user")])).1.countP isSpecificEvent = 0 :=
  ⟨rfl, rfl⟩

/-- C1 witness: the amended dispatch property at a concrete body whose
`sender_type` is "bot": the one specific event emitted is a `bot_msg`. -/
theorem C1_dispatch_events_witness :
    (handlePost (Json.obj [("attachments", Json.arr []),
        ("sender_type", Json.str "bot")])).1.countP isBotMsgEvent = 1
    ∧ (handlePost (Json.obj [("attachments", Json.arr []),
        ("sender_type", Json.str "bot")])).1.countP isSpecificEvent = 1
    ∧ (handlePost (Json.obj [("attachments", Json.arr []),
        ("sender_type", Json.str "bot")])).1.countP isRawCallbackEvent = 1
    ∧ (handlePost (Json.obj [("attachments", Json.arr []),
        ("sender_type", Json.str "bot")])).1.countP isCallbackEvent = 0 :=
  (C1_dispatch_events
      (Json.obj [("attachments", Json.arr []), ("sender_type", Json.str "bot")])
      (callbackOfObj
        [("attachments", Json.arr []), ("sender_type", Json.str "bot")] [])
      rfl).2.2.1 rfl

/-- C2 (amended): the handler's own response is always status 200 with an
empty body — it never produces any other response — but it produces that
response only when parsing the body succeeds: a parse failure aborts the
handler before the response is issued (the claim's "200 regardless of
parse outcome" is refuted by `C2_counterexample`). -/
theorem C2_response_contract (body : Json) :
    (∀ cb, parseCallback body = Except.ok cb →
      (handlePost body).2 = some { status := 200, body := "" }) ∧
    (∀ r, (handlePost body).2 = some r → r = { status := 200, body := "" }) := by
  constructor
  · intro cb h
    simp [handlePost, h]
  · intro r h
    cases hp : parseCallback body with
    | error e => simp [handlePost, hp] at h
    | ok cb =>
        simp [handlePost, hp] at h
        exact h.symm

/-- C2 counterexample: a POST body whose parse fails (no `attachments`):
the handler never reaches its response statement, so no 200 response is
produced by it, refuting "the HTTP response is status 200 ... regardless
of whether parsing succeeds or fails". -/
theorem C2_counterexample :
    (parseCallback (Json.obj [("text", Json.str "hi")])).isOk = false ∧
    (handlePost (Json.obj [("text", Json.str "hi")])).2 = none :=
  ⟨rfl, rfl⟩

/-- C2 witness: the response contract at a concrete parsable body. -/
theorem C2_response_contract_witness :
    (handlePost (Json.obj [("attachments", Json.arr [])])).2
      = some { status := 200, body := "" } :=
  (C2_response_contract (Json.obj [("attachments", Json.arr [])])).1
    (callbackOfObj [("attachments", Json.arr [])] []) rfl

/-- C8: the `raw_callback` event carrying the untyped body is always the
handler's first emission — it precedes the call to parseCallback in the
handler body, so it does not depend on the parse outcome — and when the
parse fails it is still emitted (and is then the only emission). -/
theorem C8_raw_callback_first (body : Json) :
    (handlePost body).1.head? = some (GmEvent.raw_callback body) ∧
    (∀ e, parseCallback body = Except.error e →
      (handlePost body).1 = [GmEvent.raw_callback body]) := by
  constructor
  · cases hp : parseCallback body <;> simp [handlePost, hp]
  · intro e h
    simp [handlePost, h]

/-- C8 witness: a body whose parse fails still gets its `raw_callback`
emission. -/
theorem C8_raw_callback_first_witness :
    (handlePost (Json.obj [("name", Json.str "Sam")])).1
      = [GmEvent.raw_callback (Json.obj [("name", Json.str "Sam")])] :=
  (C8_raw_callback_first (Json.obj [("name", Json.str "Sam")])).2
    (JsError.typeError "Cannot read properties of undefined (reading map)") rfl
